import Mathlib

/-!
Verification of the handsfreectl client-side protocol engine.

The development shallowly embeds the client core of the repository:
the wire protocol data model (`protocol.rs`), the line-framing codec and
request/response engine (`daemon.rs`: `receive_response`, `send_command`),
the subscription stream (`daemon.rs`: `ResponseStream::next`) and the
socket-endpoint resolver (`daemon.rs`: `get_socket_path`).

JSON serialization in the source goes through `serde_json` with derived
internally-tagged representations; here that behaviour is embedded as
explicit encoder/decoder functions over a JSON value model covering the
fragment of JSON the protocol uses (null, strings, objects).
-/

/-- JSON values, restricted to the fragment the wire protocol uses:
`null`, strings and objects.  Numbers, booleans and arrays never occur in
any protocol frame; inputs using them are treated as decode errors, which
agrees with the type-directed deserializers in the source on every frame
shape the protocol defines. -/
inductive Json where
  | null : Json
  | str : String → Json
  | obj : List (String × Json) → Json

/-- ASCII whitespace as accepted between JSON tokens. -/
def isJsonWs (c : Char) : Bool :=
  c == ' ' || c == '\t' || c == '\n' || c == '\r'

/-- Drop leading JSON whitespace from a character stream. -/
def skipJsonWs : List Char → List Char
  | c :: cs => if isJsonWs c then skipJsonWs cs else c :: cs
  | [] => []

/-- Read a JSON string body after the opening quote, up to the closing
quote.  Escape sequences are not interpreted: no protocol frame of this
program contains one. -/
def readQuoted : List Char → Option (String × List Char)
  | c :: cs =>
    if c == '\x22' then some ("", cs)
    else match readQuoted cs with
      | some (s, rest) => some (String.mk (c :: s.toList), rest)
      | none => none
  | [] => none

mutual

/-- Fuel-indexed recursive-descent parser for the JSON fragment:
a value is `null`, a quoted string, or an object. -/
def parseValue : Nat → List Char → Option (Json × List Char)
  | 0, _ => none
  | Nat.succ fuel, cs =>
    match skipJsonWs cs with
    | '\x22' :: rest =>
      match readQuoted rest with
      | some (s, r1) => some (.str s, r1)
      | none => none
    | 'n' :: 'u' :: 'l' :: 'l' :: rest => some (.null, rest)
    | '\x7b' :: rest =>
      match skipJsonWs rest with
      | '\x7d' :: r1 => some (.obj [], r1)
      | r1 =>
        match parseMembers fuel r1 with
        | some (fields, r2) => some (.obj fields, r2)
        | none => none
    | _ => none

/-- Parse one or more `"key": value` members followed by `,` members or
the closing brace. -/
def parseMembers : Nat → List Char → Option (List (String × Json) × List Char)
  | 0, _ => none
  | Nat.succ fuel, cs =>
    match skipJsonWs cs with
    | '\x22' :: rest =>
      match readQuoted rest with
      | some (key, r1) =>
        match skipJsonWs r1 with
        | ':' :: r2 =>
          match parseValue fuel r2 with
          | some (v, r3) =>
            match skipJsonWs r3 with
            | ',' :: r4 =>
              match parseMembers fuel r4 with
              | some (fields, r5) => some ((key, v) :: fields, r5)
              | none => none
            | '\x7d' :: r4 => some ([(key, v)], r4)
            | _ => none
          | none => none
        | _ => none
      | none => none
    | _ => none

end

/-- Parse a complete JSON document: one value followed only by
whitespace, as `serde_json::from_str` requires. -/
def parseJson (s : String) : Option Json :=
  match parseValue (s.length + 1) s.toList with
  | some (j, rest) => if (skipJsonWs rest).isEmpty then some j else none
  | none => none

/-- Output mode for transcription, from `cli.rs` (`CliOutputMode`):
a two-valued enum serialized with `rename_all = "lowercase"`. -/
inductive CliOutputMode where
  | Keyboard : CliOutputMode
  | Clipboard : CliOutputMode
deriving DecidableEq

/-- Status information returned by the daemon, from `protocol.rs`
(`DaemonStatus`): a free-form state label and an optional last error. -/
structure DaemonStatus where
  state : String
  last_error : Option String
deriving DecidableEq

/-- Modelled from the spec: the `Toggle` and `Subscribe` variants of
`DaemonCommand` are constructed by `main.rs` but their defining
declaration is missing from the provided sources — the `protocol.rs`
snapshot present is an older revision with only four variants, which
`main.rs` does not compile against.  The full six-variant command type
is taken from §3/§6 of the specification.  The four variants that do
appear in the provided `protocol.rs` are unchanged. -/
inductive DaemonCommand where
  | Start : CliOutputMode → DaemonCommand
  | Stop : DaemonCommand
  | Status : DaemonCommand
  | Shutdown : DaemonCommand
  | Toggle : Option CliOutputMode → DaemonCommand
  | Subscribe : DaemonCommand
deriving DecidableEq

/-- Modelled from the spec: the `StateChange` variant and the nested
`status` field of `DaemonResponse` are matched by `main.rs`
(`DaemonResponse::Status \x7b status \x7d`, `StateChange \x7b status \x7d`) but their
defining declaration is missing from the provided sources — the
`protocol.rs` snapshot present is an older flat-status revision that
`main.rs` does not compile against.  The response type follows §3/§6:
internally tagged by `response_type`, with the status payload nested
under a `status` key. -/
inductive DaemonResponse where
  | Ack : DaemonResponse
  | Status : DaemonStatus → DaemonResponse
  | StateChange : DaemonStatus → DaemonResponse
  | Error : String → DaemonResponse
deriving DecidableEq

/-- The lowercase wire name of an output mode (`rename_all = "lowercase"`). -/
def CliOutputMode.wireName : CliOutputMode → String
  | .Keyboard => "keyboard"
  | .Clipboard => "clipboard"

/-- Serialization of a command as `serde_json::to_string` produces it:
one compact JSON object, the `command` tag first, then the variant's
fields in declaration order; a `Toggle` with no output mode omits the
field (spec §6 gives `\x7b"command":"toggle"\x7d` for that case). -/
def DaemonCommand.toStr : DaemonCommand → String
  | .Start m => "\x7b\x22command\x22:\x22start\x22,\x22output_mode\x22:\x22" ++ m.wireName ++ "\x22\x7d"
  | .Stop => "\x7b\x22command\x22:\x22stop\x22\x7d"
  | .Status => "\x7b\x22command\x22:\x22status\x22\x7d"
  | .Shutdown => "\x7b\x22command\x22:\x22shutdown\x22\x7d"
  | .Toggle none => "\x7b\x22command\x22:\x22toggle\x22\x7d"
  | .Toggle (some m) => "\x7b\x22command\x22:\x22toggle\x22,\x22output_mode\x22:\x22" ++ m.wireName ++ "\x22\x7d"
  | .Subscribe => "\x7b\x22command\x22:\x22subscribe\x22\x7d"

/-- Decode an output mode from a JSON value (lowercase wire names). -/
def CliOutputMode.fromJson : Json → Except String CliOutputMode
  | .str "keyboard" => .ok .Keyboard
  | .str "clipboard" => .ok .Clipboard
  | _ => .error "unknown variant for CliOutputMode"

/-- Decode a `DaemonStatus` from a JSON value: field `state` is a
required string, field `last_error` is an optional string (absent or
`null` mean `none`); unknown fields are ignored, as derived serde
deserializers do by default. -/
def DaemonStatus.fromJson : Json → Except String DaemonStatus
  | .obj fields =>
    match fields.lookup "state" with
    | some (.str st) =>
      match fields.lookup "last_error" with
      | some .null => .ok ⟨st, none⟩
      | some (.str e) => .ok ⟨st, some e⟩
      | some _ => .error "invalid type for field last_error"
      | none => .ok ⟨st, none⟩
    | some _ => .error "invalid type for field state"
    | none => .error "missing field state"
  | _ => .error "invalid type, expected struct DaemonStatus"

/-- Decode a response from a JSON value: internally tagged by
`response_type` (`snake_case` variant names); `status` and
`state_change` carry the status nested under a `status` key, `error`
carries a string `message`. -/
def DaemonResponse.fromJson : Json → Except String DaemonResponse
  | .obj fields =>
    match fields.lookup "response_type" with
    | some (.str "ack") => .ok .Ack
    | some (.str "status") =>
      match fields.lookup "status" with
      | some j =>
        match DaemonStatus.fromJson j with
        | .ok st => .ok (.Status st)
        | .error e => .error e
      | none => .error "missing field status"
    | some (.str "state_change") =>
      match fields.lookup "status" with
      | some j =>
        match DaemonStatus.fromJson j with
        | .ok st => .ok (.StateChange st)
        | .error e => .error e
      | none => .error "missing field status"
    | some (.str "error") =>
      match fields.lookup "message" with
      | some (.str m) => .ok (.Error m)
      | some _ => .error "invalid type for field message"
      | none => .error "missing field message"
    | some (.str _) => .error "unknown variant for DaemonResponse"
    | some _ => .error "invalid type for tag response_type"
    | none => .error "missing field response_type"
  | _ => .error "invalid type, expected a response object"

/-- `serde_json::from_str::<DaemonResponse>`: parse the text as JSON,
then decode the value. -/
def DaemonResponse.fromStr (s : String) : Except String DaemonResponse :=
  match parseJson s with
  | some j => DaemonResponse.fromJson j
  | none => .error "invalid JSON syntax"

/-- Decode a command from a JSON value (the service-side direction):
internally tagged by `command` (lowercase variant names); `start`
requires `output_mode`, `toggle` takes it optionally (absent or `null`
mean `none`). -/
def DaemonCommand.fromJson : Json → Except String DaemonCommand
  | .obj fields =>
    match fields.lookup "command" with
    | some (.str "start") =>
      match fields.lookup "output_mode" with
      | some j =>
        match CliOutputMode.fromJson j with
        | .ok m => .ok (.Start m)
        | .error e => .error e
      | none => .error "missing field output_mode"
    | some (.str "stop") => .ok .Stop
    | some (.str "status") => .ok .Status
    | some (.str "shutdown") => .ok .Shutdown
    | some (.str "toggle") =>
      match fields.lookup "output_mode" with
      | some .null => .ok (.Toggle none)
      | some j =>
        match CliOutputMode.fromJson j with
        | .ok m => .ok (.Toggle (some m))
        | .error e => .error e
      | none => .ok (.Toggle none)
    | some (.str "subscribe") => .ok .Subscribe
    | some (.str _) => .error "unknown variant for DaemonCommand"
    | some _ => .error "invalid type for tag command"
    | none => .error "missing field command"
  | _ => .error "invalid type, expected a command object"

/-- `serde_json::from_str::<DaemonCommand>`: parse the text as JSON,
then decode the value. -/
def DaemonCommand.fromStr (s : String) : Except String DaemonCommand :=
  match parseJson s with
  | some j => DaemonCommand.fromJson j
  | none => .error "invalid JSON syntax"

/-- ASCII whitespace, as trimmed by Rust's `str::trim` (restricted to
the ASCII range, which covers every character the protocol produces). -/
def isAsciiWs (c : Char) : Bool :=
  c == ' ' || c == '\t' || c == '\n' || c == '\r'

/-- Rust's `trim_end_matches('\n')`: remove every trailing newline. -/
def trimEndNewline (s : String) : String :=
  String.mk ((s.toList.reverse.dropWhile (· == '\n')).reverse)

/-- Rust's `str::trim`: remove whitespace from both ends. -/
def rustTrim (s : String) : String :=
  String.mk (((s.toList.dropWhile isAsciiWs).reverse.dropWhile isAsciiWs).reverse)

/-- Timeout for waiting for a response, from `daemon.rs`
(`READ_TIMEOUT_SECS`). -/
def READ_TIMEOUT_SECS : Nat := 5

/-- The outcome of `timeout(Duration::from_secs(READ_TIMEOUT_SECS),
reader.read_line(&mut response_json))` in `receive_response`:
  * `line n content` — `Ok(Ok(n))` with `n > 0`; `content` is what
    `read_line` appended (the line, including its `'\n'` unless the
    stream ended without one);
  * `eof` — `Ok(Ok(0))`: the peer closed before any byte of this read
    (with `read_line`, a return of 0 means nothing was appended);
  * `timeout buf` — `Err(_)` from the timer, with `buf` whatever had
    been appended to the buffer when the deadline fired;
  * `ioError e` — `Ok(Err(e))`, an I/O error from `read_line`. -/
inductive ReadOutcome where
  | line : Nat → String → ReadOutcome
  | eof : ReadOutcome
  | timeout : String → ReadOutcome
  | ioError : String → ReadOutcome

/-- `daemon.rs` `receive_response`, as a function of the single read
outcome it branches on: the `Ok(Ok(0)) | Err(_)` arm distinguishes an
empty buffer (no response at all) from a partial read; a successful
read is newline-trimmed, rejected if empty, and otherwise deserialized,
a failure being wrapped with the offending line. -/
def receive_response (r : ReadOutcome) : Except String DaemonResponse :=
  match r with
  | .eof =>
    .error ("Connection closed by daemon or timeout after " ++
      toString READ_TIMEOUT_SECS ++ " seconds while waiting for response.")
  | .timeout buf =>
    if buf.isEmpty then
      .error ("Connection closed by daemon or timeout after " ++
        toString READ_TIMEOUT_SECS ++ " seconds while waiting for response.")
    else
      .error ("Timeout after " ++ toString READ_TIMEOUT_SECS ++
        " seconds reading response line.")
  | .line _ content =>
    let trimmed_response := trimEndNewline content
    if trimmed_response.isEmpty then
      .error "Received empty response line from daemon."
    else
      match DaemonResponse.fromStr trimmed_response with
      | .ok resp => .ok resp
      | .error e =>
        .error ("Failed to deserialize daemon response \x27" ++
          trimmed_response ++ "\x27: " ++ e)
  | .ioError e => .error ("Failed to read response from daemon: " ++ e)

/-- One result of `read_line` on the subscription stream's buffered
reader: a line with `n > 0` bytes, end of file (`Ok(0)`), or an I/O
error.  A `ResponseStream`'s remaining input is modelled as the list of
outcomes its successive `read_line` calls produce. -/
inductive ReadEvent where
  | line : String → ReadEvent
  | eof : ReadEvent
  | ioError : String → ReadEvent

/-- `daemon.rs` `ResponseStream::next` over the modelled reader: loop
reading lines; EOF ends the stream (`none`); a line whose
newline-trimmed text is blank after a full trim is skipped and the loop
continues; otherwise the newline-trimmed line is deserialized, errors
being wrapped with the offending line; an I/O error yields one failed
item.  Returns the item together with the reader's remaining input. -/
def ResponseStream.next :
    List ReadEvent → Option (Except String DaemonResponse) × List ReadEvent
  | [] => (none, [])
  | .eof :: rest => (none, rest)
  | .ioError e :: rest => (some (.error ("IO Error: " ++ e)), rest)
  | .line content :: rest =>
    let trimmed := trimEndNewline content
    if (rustTrim trimmed).isEmpty then
      ResponseStream.next rest
    else
      match DaemonResponse.fromStr trimmed with
      | .ok resp => (some (.ok resp), rest)
      | .error e =>
        (some (.error ("Failed to deserialize: " ++ e ++ " (Line: " ++
          trimmed ++ ")")), rest)

/-- The environment `get_socket_path` consults: the value of the
`XDG_RUNTIME_DIR` variable (`none` when unset), whether
`fs::create_dir_all` on the socket directory succeeds, and the current
user id returned by `get_current_uid()`. -/
structure Env where
  xdgRuntimeDir : Option String
  createDirOk : Bool
  uid : Nat

/-- The filesystem directories that exist, for tracking the effect of
`fs::create_dir_all`. -/
structure FsState where
  dirs : List String

/-- `fs::create_dir_all`: on success the directory exists afterwards;
on failure the filesystem is unchanged.  Success or failure is taken
from the environment. -/
def create_dir_all (ok : Bool) (st : FsState) (d : String) : Bool × FsState :=
  if ok then (true, ⟨d :: st.dirs⟩) else (false, st)

/-- `daemon.rs` `get_socket_path`: with `XDG_RUNTIME_DIR` set, join
`handsfree/daemon.sock` onto it (`PathBuf::join` modelled as
`/`-separated concatenation), attempting to create the `handsfree`
directory and falling through to the fallback on failure; with the
variable unset, or after a creation failure, return
`/tmp/handsfree-<uid>.sock`.  Every branch returns `Ok`. -/
def get_socket_path (env : Env) (st : FsState) :
    Except String String × FsState :=
  match env.xdgRuntimeDir with
  | some runtime_dir_str =>
    let socket_dir := runtime_dir_str ++ "/handsfree"
    match create_dir_all env.createDirOk st socket_dir with
    | (true, st') => (.ok (socket_dir ++ "/daemon.sock"), st')
    | (false, st') =>
      (.ok ("/tmp/handsfree-" ++ toString env.uid ++ ".sock"), st')
  | none => (.ok ("/tmp/handsfree-" ++ toString env.uid ++ ".sock"), st)

/-- A string with a non-empty right appendee is non-empty. -/
theorem append_right_ne_empty (a b : String) (hb : b ≠ "") : a ++ b ≠ "" := by
  intro h
  apply hb
  have hdata : (a ++ b).data = a.data ++ b.data := String.data_append a b
  rw [h] at hdata
  have hb2 : b.data = [] := (List.append_eq_nil.mp hdata.symm).2
  cases b
  simp_all

/-- Claim C1: decoding the §6/§8 wire responses yields the matching
`Response` values — the ack line decodes to `Ack`, the nested status
line with a null `last_error` decodes to `Status` with `state = "idle"`
and no last error, and the same nested shape with a string `last_error`
decodes to the matching `some` value. -/
theorem c1_wire_response_decoding :
    DaemonResponse.fromStr "\x7b\x22response_type\x22:\x22ack\x22\x7d" = .ok .Ack
    ∧ DaemonResponse.fromStr
        "\x7b\x22response_type\x22:\x22status\x22,\x22status\x22:\x7b\x22state\x22:\x22idle\x22,\x22last_error\x22:null\x7d\x7d" =
      .ok (.Status ⟨"idle", none⟩)
    ∧ DaemonResponse.fromStr
        "\x7b\x22response_type\x22:\x22status\x22,\x22status\x22:\x7b\x22state\x22:\x22idle\x22,\x22last_error\x22:\x22Model failed\x22\x7d\x7d" =
      .ok (.Status ⟨"idle", some "Model failed"⟩) := by
  refine ⟨rfl, rfl, rfl⟩

/-- Claim C2: each of the six `Command` variants encodes to exactly the
byte-identical single-line JSON object given as its §6 literal example,
with the variant tag under the `command` key (both `Toggle` forms are
covered). -/
theorem c2_command_encoding_literals :
    (DaemonCommand.Start .Clipboard).toStr = "\x7b\x22command\x22:\x22start\x22,\x22output_mode\x22:\x22clipboard\x22\x7d"
    ∧ DaemonCommand.Stop.toStr = "\x7b\x22command\x22:\x22stop\x22\x7d"
    ∧ DaemonCommand.Status.toStr = "\x7b\x22command\x22:\x22status\x22\x7d"
    ∧ DaemonCommand.Shutdown.toStr = "\x7b\x22command\x22:\x22shutdown\x22\x7d"
    ∧ (DaemonCommand.Toggle none).toStr = "\x7b\x22command\x22:\x22toggle\x22\x7d"
    ∧ (DaemonCommand.Toggle (some .Keyboard)).toStr = "\x7b\x22command\x22:\x22toggle\x22,\x22output_mode\x22:\x22keyboard\x22\x7d"
    ∧ DaemonCommand.Subscribe.toStr = "\x7b\x22command\x22:\x22subscribe\x22\x7d" := by
  refine ⟨rfl, rfl, rfl, rfl, rfl, rfl, rfl⟩

/-- Claim C3: in subscription mode, EOF ends the stream cleanly
(`next` yields `none`, not an error) for any remaining input, and a
malformed line yields exactly one failed item without ending the
stream — the concrete sequence valid `state_change` frame, malformed
line, valid `state_change` frame yields three items: success, failure,
success. -/
theorem c3_stream_eof_and_malformed_line :
    (∀ rest, ResponseStream.next (.eof :: rest) = (none, rest))
    ∧ ResponseStream.next
        [.line "\x7b\x22response_type\x22:\x22state_change\x22,\x22status\x22:\x7b\x22state\x22:\x22listening\x22,\x22last_error\x22:null\x7d\x7d\n",
         .line "\x7binvalid_json\x7d\n",
         .line "\x7b\x22response_type\x22:\x22state_change\x22,\x22status\x22:\x7b\x22state\x22:\x22idle\x22,\x22last_error\x22:null\x7d\x7d\n"] =
      (some (.ok (.StateChange ⟨"listening", none⟩)),
       [.line "\x7binvalid_json\x7d\n",
        .line "\x7b\x22response_type\x22:\x22state_change\x22,\x22status\x22:\x7b\x22state\x22:\x22idle\x22,\x22last_error\x22:null\x7d\x7d\n"])
    ∧ ResponseStream.next
        [.line "\x7binvalid_json\x7d\n",
         .line "\x7b\x22response_type\x22:\x22state_change\x22,\x22status\x22:\x7b\x22state\x22:\x22idle\x22,\x22last_error\x22:null\x7d\x7d\n"] =
      (some (.error "Failed to deserialize: invalid JSON syntax (Line: \x7binvalid_json\x7d)"),
       [.line "\x7b\x22response_type\x22:\x22state_change\x22,\x22status\x22:\x7b\x22state\x22:\x22idle\x22,\x22last_error\x22:null\x7d\x7d\n"])
    ∧ ResponseStream.next
        [.line "\x7b\x22response_type\x22:\x22state_change\x22,\x22status\x22:\x7b\x22state\x22:\x22idle\x22,\x22last_error\x22:null\x7d\x7d\n"] =
      (some (.ok (.StateChange ⟨"idle", none⟩)), []) := by
  refine ⟨fun rest => rfl, rfl, rfl, rfl⟩

/-- Claim C4: with `XDG_RUNTIME_DIR` set to a writable path `P` (so the
directory creation succeeds), the resolved socket path is
`P/handsfree/daemon.sock` and the directory `P/handsfree` exists
afterwards; with the variable unset, the resolved path is
`/tmp/handsfree-<uid>.sock` for the current user id. -/
theorem c4_endpoint_resolution (P : String) (uid : Nat) (st : FsState) :
    ((get_socket_path ⟨some P, true, uid⟩ st).1 = .ok (P ++ "/handsfree/daemon.sock")
      ∧ (P ++ "/handsfree") ∈ (get_socket_path ⟨some P, true, uid⟩ st).2.dirs)
    ∧ (∀ createOk : Bool,
        (get_socket_path ⟨none, createOk, uid⟩ st).1 =
          .ok ("/tmp/handsfree-" ++ toString uid ++ ".sock")) := by
  refine ⟨⟨?_, ?_⟩, fun createOk => rfl⟩
  · show Except.ok ((P ++ "/handsfree") ++ "/daemon.sock") =
      .ok (P ++ "/handsfree/daemon.sock")
    have hjoin : "/handsfree" ++ "/daemon.sock" = "/handsfree/daemon.sock" := rfl
    rw [String.append_assoc, hjoin]
  · show (P ++ "/handsfree") ∈ (P ++ "/handsfree") :: st.dirs
    exact List.mem_cons_self _ _

/-- Claim C5: the endpoint resolver is infallible — for every
environment it returns `Ok` with a non-empty path, and a
directory-creation failure is absorbed into the `/tmp/handsfree-<uid>.sock`
fallback rather than surfaced as an error. -/
theorem c5_resolver_infallible :
    (∀ (env : Env) (st : FsState),
      ∃ p, (get_socket_path env st).1 = .ok p ∧ p ≠ "")
    ∧ (∀ (dir : String) (uid : Nat) (st : FsState),
        (get_socket_path ⟨some dir, false, uid⟩ st).1 =
          .ok ("/tmp/handsfree-" ++ toString uid ++ ".sock")) := by
  constructor
  · intro env st
    obtain ⟨xdg, createOk, uid⟩ := env
    cases xdg with
    | none =>
      exact ⟨_, rfl, append_right_ne_empty _ ".sock" (by decide)⟩
    | some dir =>
      cases createOk with
      | true =>
        exact ⟨_, rfl, append_right_ne_empty _ "/daemon.sock" (by decide)⟩
      | false =>
        exact ⟨_, rfl, append_right_ne_empty _ ".sock" (by decide)⟩
  · intro dir uid st
    rfl

/-- Claim C6: a read timeout with zero bytes read, and an EOF with zero
bytes read, both fail the request/response call with the no-response
error, whose message names the five-second timeout duration. -/
theorem c6_no_response_names_timeout :
    receive_response .eof =
      .error ("Connection closed by daemon or timeout after " ++ "5 seconds" ++
        " while waiting for response.")
    ∧ receive_response (.timeout "") =
      .error ("Connection closed by daemon or timeout after " ++ "5 seconds" ++
        " while waiting for response.") := by
  refine ⟨rfl, rfl⟩

/-- Claim C7: every line whose newline-trimmed text fails JSON decoding
produces, on both the single-shot path and the subscription stream, a
decode error whose message contains the offending trimmed line as a
substring — the bad input is never silently dropped. -/
theorem c7_decode_error_carries_line (content e : String) (rest : List ReadEvent)
    (hblank : (rustTrim (trimEndNewline content)).isEmpty = false)
    (hfail : DaemonResponse.fromStr (trimEndNewline content) = .error e) :
    (∀ n, ∃ pre post,
      receive_response (.line n content) =
        .error (pre ++ trimEndNewline content ++ post))
    ∧ ∃ pre post,
        ResponseStream.next (.line content :: rest) =
          (some (.error (pre ++ trimEndNewline content ++ post)), rest) := by
  have hne : (trimEndNewline content).isEmpty = false := by
    cases hcase : (trimEndNewline content).isEmpty with
    | false => rfl
    | true =>
      rw [String.isEmpty_iff] at hcase
      rw [hcase] at hblank
      exact absurd hblank (by decide)
  constructor
  · intro n
    refine ⟨"Failed to deserialize daemon response \x27", "\x27: " ++ e, ?_⟩
    simp only [receive_response, hne, Bool.false_eq_true, if_false, hfail,
      String.append_assoc]
  · refine ⟨"Failed to deserialize: " ++ e ++ " (Line: ", ")", ?_⟩
    simp only [ResponseStream.next, hblank, Bool.false_eq_true, if_false, hfail,
      String.append_assoc]

/-- Witness for C7 at the concrete malformed line `\x7binvalid_json\x7d`
followed by a newline: the hypotheses hold there and the conclusion
follows by the theorem. -/
theorem c7_decode_error_carries_line_witness :
    (rustTrim (trimEndNewline "\x7binvalid_json\x7d\n")).isEmpty = false
    ∧ DaemonResponse.fromStr (trimEndNewline "\x7binvalid_json\x7d\n") =
        .error "invalid JSON syntax"
    ∧ ((∀ n, ∃ pre post,
          receive_response (.line n "\x7binvalid_json\x7d\n") =
            .error (pre ++ trimEndNewline "\x7binvalid_json\x7d\n" ++ post))
        ∧ ∃ pre post,
            ResponseStream.next [.line "\x7binvalid_json\x7d\n"] =
              (some (.error (pre ++ trimEndNewline "\x7binvalid_json\x7d\n" ++ post)), [])) :=
  ⟨by decide, by rfl,
    c7_decode_error_carries_line "\x7binvalid_json\x7d\n" "invalid JSON syntax" []
      (by decide) (by rfl)⟩

/-- Counterexample to claim C8: on the single-shot request/response
read path, a blank line is not discarded in favour of the next line —
`receive_response` fails immediately with the empty-response error. -/
theorem c8_single_shot_blank_line_fails :
    receive_response (.line 1 "\n") =
      .error "Received empty response line from daemon." := by
  rfl

/-- Claim C8 as amended: blank-line tolerance holds only on the
subscription stream, where a line that is blank after trimming is
discarded and the next line is read; the single-shot request/response
read path instead fails on a blank line with the empty-response
error. -/
theorem c8_blank_line_tolerance_amended :
    (∀ rest, ResponseStream.next (.line "\n" :: rest) = ResponseStream.next rest)
    ∧ (∀ rest, ResponseStream.next (.line " \n" :: rest) = ResponseStream.next rest)
    ∧ receive_response (.line 2 " \n") =
        .error "Failed to deserialize daemon response \x27 \x27: invalid JSON syntax"
    ∧ receive_response (.line 1 "\n\n") =
        .error "Received empty response line from daemon." := by
  refine ⟨fun rest => rfl, fun rest => rfl, rfl, rfl⟩

/-- Claim C9: encoding any value of the `Command` type and decoding the
result yields the original value — the variant tag and every field,
the output-mode enum included, survive the round trip losslessly. -/
theorem c9_command_round_trip (c : DaemonCommand) :
    DaemonCommand.fromStr c.toStr = .ok c := by
  cases c with
  | Start m => cases m <;> rfl
  | Toggle m =>
    cases m with
    | none => rfl
    | some m => cases m <;> rfl
  | Stop => rfl
  | Status => rfl
  | Shutdown => rfl
  | Subscribe => rfl

/-- Claim C10: in subscription mode, a read that fails with an I/O
error yields exactly one failed item carrying the I/O error text —
`next` returns `some` failed item with the remaining input intact, not
end-of-stream. -/
theorem c10_stream_io_error_single_item (e : String) (rest : List ReadEvent) :
    ResponseStream.next (.ioError e :: rest) =
      (some (.error ("IO Error: " ++ e)), rest) := by
  rfl
